import Mathlib

/-!
# Fan presence aggregation: `FanEnclosure` and the `NullGpio` stand-in sensor

A shallow embedding of `fan_enclosure.cpp` and of the `NullGpio` class of
`presence/gpio.hpp`, followed by the properties established about them.

* `std::map<K, V>` is a list of entries kept in strictly ascending key order;
  `emplace` inserts at the ordered position and leaves the map alone when the
  key is already there.
* The D-Bus is a function from the method call that is sent to the reply
  message that comes back; every call that is sent is recorded, with its
  reply, in a trace.
* `std::runtime_error` is the `Except.error` outcome.
-/

/-! ## `std::map` -/

/-- A `std::map<κ, ν>`: its entries, in ascending key order. -/
abbrev StdMap (κ ν : Type) := List (κ × ν)

/-- The `std::map::emplace` member: the entry is inserted at its place in key
order, unless an entry with the same key exists, which is then kept. -/
def StdMap.emplace {κ ν : Type} [LinearOrder κ] (k : κ) (v : ν) : StdMap κ ν → StdMap κ ν
  | [] => [(k, v)]
  | (k', v') :: rest =>
    if k < k' then (k, v) :: (k', v') :: rest
    else if k = k' then (k', v') :: rest
    else (k', v') :: StdMap.emplace k v rest

/-- The keys of a map, in iteration order. -/
def StdMap.keys {κ ν : Type} (m : StdMap κ ν) : List κ := m.map Prod.fst

/-! ## Constants of `fan_enclosure.cpp` -/

def MAPPER_BUSNAME : String := "xyz.openbmc_project.ObjectMapper"
def MAPPER_PATH : String := "/xyz/openbmc_project/ObjectMapper"
def MAPPER_INTERFACE : String := "xyz.openbmc_project.ObjectMapper"
def INVENTORY_PATH : String := "/xyz/openbmc_project/inventory"
def INVENTORY_INTF : String := "xyz.openbmc_project.Inventory.Manager"

/-! ## Data model -/

/-- Modelled from the spec: the `presenceState` enumeration is declared in
`fan_enclosure.hpp`, which is not among the sources; the spec gives it the two
values PRESENT and NOT_PRESENT. -/
inductive presenceState where
  | PRESENT
  | NOT_PRESENT
  deriving DecidableEq, Repr

/-- Modelled from the spec: the conversion of a `presenceState` to the `bool`
parameter of `getObjectMap` depends on the enumerator values of the missing
header; the spec publishes `Present: curState`, that is true for PRESENT. -/
def presenceState.toBool : presenceState → Bool
  | .PRESENT => true
  | .NOT_PRESENT => false

/-- Modelled from the spec: the `Sensor` class is declared in a header that is
not among the sources; `getCurPresState` uses only its `isPresent()` reading,
a boolean. -/
structure Sensor where
  isPresent : Bool
  deriving DecidableEq, Repr

/-- Modelled from the spec: `Value` is declared in `fan_enclosure.hpp`; the
spec has a boolean (`Present`) and a text (`PrettyName`) property value. -/
inductive Value where
  | bool (b : Bool)
  | string (s : String)
  deriving DecidableEq, Repr

abbrev PropertyMap := StdMap String Value
abbrev InterfaceMap := StdMap String PropertyMap
abbrev Object := String
abbrev ObjectMap := StdMap Object InterfaceMap

/-- An argument appended to a method call message. -/
inductive Arg where
  | str (s : String)
  | strs (l : List String)
  | objectMap (m : ObjectMap)
  deriving DecidableEq, Repr

/-- A message made by `bus.new_method_call(service, path, interface, member)`
together with what was appended to it. -/
structure MethodCall where
  service : String
  path : String
  interface : String
  member : String
  args : List Arg
  deriving DecidableEq, Repr

/-- A reply message: whether it is a method error, and the dictionary entries
(service name, interface list) it carries in wire order. -/
structure Message where
  is_method_error : Bool
  body : List (String × List String)
  deriving DecidableEq, Repr

/-- The bus: the reply that `bus.call` gives to a method call. -/
structure Bus where
  call : MethodCall → Message

/-- The `mapperResponseMsg.read(mapperResponse)` step: the dictionary entries
of the message are put into the `std::map` one after the other. -/
def Message.read (msg : Message) : StdMap String (List String) :=
  msg.body.foldl (fun m e => StdMap.emplace e.1 e.2 m) []

/-- The members of `FanEnclosure` that `fan_enclosure.cpp` uses. -/
structure FanEnclosure where
  invPath : String
  fanDesc : String
  sensors : List Sensor
  presState : presenceState
  deriving DecidableEq, Repr

/-! ## Operations of `fan_enclosure.cpp` -/

/-- The `FanEnclosure::getCurPresState` function: `std::any_of` over the
sensors' `isPresent()`. -/
def FanEnclosure.getCurPresState (fan : FanEnclosure) : presenceState :=
  let isPresent := fan.sensors.any (fun s => s.isPresent)
  if isPresent then .PRESENT else .NOT_PRESENT

/-- The `FanEnclosure::getObjectMap` function. -/
def FanEnclosure.getObjectMap (fan : FanEnclosure) (curPresState : Bool) : ObjectMap :=
  let invObj : ObjectMap := []
  let invIntf : InterfaceMap := []
  let invProp : PropertyMap := []
  let invProp := StdMap.emplace "Present" (Value.bool curPresState) invProp
  let invProp := StdMap.emplace "PrettyName" (Value.string fan.fanDesc) invProp
  let invIntf := StdMap.emplace "xyz.openbmc_project.Inventory.Item" invProp invIntf
  let fanInvPath : Object := fan.invPath
  StdMap.emplace fanInvPath invIntf invObj

/-- The `GetObject` call that `getInvService` builds and sends to the mapper. -/
def mapperCall : MethodCall :=
  { service := MAPPER_BUSNAME, path := MAPPER_PATH, interface := MAPPER_INTERFACE,
    member := "GetObject", args := [Arg.str INVENTORY_PATH, Arg.strs [INVENTORY_INTF]] }

/-- The `FanEnclosure::getInvService` function: the service name, or the
`runtime_error` raised, together with the call sent and its reply. -/
def FanEnclosure.getInvService (bus : Bus) : Except String String × List (MethodCall × Message) :=
  let mapperResponseMsg := bus.call mapperCall
  if mapperResponseMsg.is_method_error then
    (.error "Error in mapper call to get inventory service name", [(mapperCall, mapperResponseMsg)])
  else
    let mapperResponse := mapperResponseMsg.read
    match mapperResponse with
    | [] =>
      (.error "Error in mapper response for inventory service name",
        [(mapperCall, mapperResponseMsg)])
    | first :: _ => (.ok first.1, [(mapperCall, mapperResponseMsg)])

/-- The `Notify` call that `updInventory` builds for a service name and an
inventory object. -/
def invMsg (invService : String) (invObj : ObjectMap) : MethodCall :=
  { service := invService, path := INVENTORY_PATH, interface := INVENTORY_INTF,
    member := "Notify", args := [Arg.objectMap invObj] }

/-- The `FanEnclosure::updInventory` function: the fan afterwards, and the
calls sent on the bus with their replies, in order. -/
def FanEnclosure.updInventory (fan : FanEnclosure) (bus : Bus) :
    FanEnclosure × List (MethodCall × Message) :=
  let curPresState := fan.getCurPresState
  if fan.presState ≠ curPresState then
    let invObj := fan.getObjectMap curPresState.toBool
    match FanEnclosure.getInvService bus with
    | (.error _, sent) => (fan, sent)
    | (.ok invService, sent) =>
      let invMgrResponseMsg := bus.call (invMsg invService invObj)
      if invMgrResponseMsg.is_method_error then
        (fan, sent ++ [(invMsg invService invObj, invMgrResponseMsg)])
      else
        ({ fan with presState := curPresState },
          sent ++ [(invMsg invService invObj, invMgrResponseMsg)])
  else
    (fan, [])

/-- The `FanEnclosure::addSensor` function. -/
def FanEnclosure.addSensor (fan : FanEnclosure) (sensor : Sensor) : FanEnclosure :=
  { fan with sensors := fan.sensors ++ [sensor] }

/-! ## Observations on a trace of bus calls -/

/-- Whether a sent call is the inventory `Notify` call. -/
def isNotify (c : MethodCall × Message) : Bool :=
  c.1.member == "Notify"

/-- The number of `Notify` calls in a trace. -/
def notifyCount (sent : List (MethodCall × Message)) : Nat :=
  sent.countP isNotify

/-- The number of `Notify` calls of a trace whose reply is not a method error. -/
def notifyAccepted (sent : List (MethodCall × Message)) : Nat :=
  sent.countP (fun c => isNotify c && !c.2.is_method_error)

/-- The number of `Notify` calls of a trace whose reply is a method error. -/
def notifyRejected (sent : List (MethodCall × Message)) : Nat :=
  sent.countP (fun c => isNotify c && c.2.is_method_error)

/-- Consecutive runs of `updInventory`, one per bus behaviour, the sensors
keeping their readings: the fan afterwards and all calls sent. -/
def FanEnclosure.updInventoryRuns (fan : FanEnclosure) :
    List Bus → FanEnclosure × List (MethodCall × Message)
  | [] => (fan, [])
  | bus :: rest =>
    let r := fan.updInventory bus
    let rs := FanEnclosure.updInventoryRuns r.1 rest
    (rs.1, r.2 ++ rs.2)

/-- Whether the broker lookup fails on this bus: the mapper reply is a method
error, or the response map read from it is empty. -/
def Bus.lookupFails (bus : Bus) : Bool :=
  (bus.call mapperCall).is_method_error || (bus.call mapperCall).read.isEmpty

/-! ## The redundancy policy's conflict detection -/

/-- Whether the sensors of the fan all report the same reading. -/
def FanEnclosure.unanimous (fan : FanEnclosure) : Bool :=
  fan.sensors.all (fun s => s.isPresent) || fan.sensors.all (fun s => !s.isPresent)

/-- Modelled from the spec: the code that runs the conflict detection of the
redundancy policy is not among the sources, which only declare `logConflict`.
By the spec, whenever the sensors do not unanimously agree, the policy invokes
`logConflict(fanPath)` on every sensor whose reading differs from the
authoritative vote. The result lists each invocation: the position of the
sensor among the fan's sensors and the path passed. -/
def FanEnclosure.logConflicts (fan : FanEnclosure) : List (Nat × String) :=
  if fan.unanimous then []
  else
    ((List.range fan.sensors.length).filter fun i =>
      (fan.sensors[i]?).any fun s => s.isPresent != fan.getCurPresState.toBool).map
        fun i => (i, fan.invPath)

/-! ## The `NullGpio` sensor of `presence/gpio.hpp` -/

/-- The `NullGpio` class: it declares no data member. -/
structure NullGpio where
  deriving DecidableEq, Repr

/-- What a method of a presence sensor can act on: the sensor object and the
diagnostics emitted so far. -/
structure SensorWorld where
  sensor : NullGpio
  journal : List String
  deriving DecidableEq, Repr

/-- The `NullGpio::start` method: returns false. -/
def NullGpio.start (w : SensorWorld) : Bool × SensorWorld := (false, w)

/-- The `NullGpio::stop` method: an empty body. -/
def NullGpio.stop (w : SensorWorld) : SensorWorld := w

/-- The `NullGpio::present` method: returns false. -/
def NullGpio.present (w : SensorWorld) : Bool × SensorWorld := (false, w)

/-- The `NullGpio::logConflict` method: an empty body; the path is unused. -/
def NullGpio.logConflict (w : SensorWorld) (_fanInventoryPath : String) : SensorWorld := w

/-- A call of one of the four methods that `NullGpio` defines. -/
inductive SensorCall where
  | start
  | stop
  | present
  | logConflict (fanInventoryPath : String)
  deriving DecidableEq, Repr

/-- One method call on a `NullGpio`: what it returns, if it returns a value,
and the world afterwards. -/
def NullGpio.invoke (w : SensorWorld) : SensorCall → Option Bool × SensorWorld
  | .start => (some (NullGpio.start w).1, (NullGpio.start w).2)
  | .stop => (none, NullGpio.stop w)
  | .present => (some (NullGpio.present w).1, (NullGpio.present w).2)
  | .logConflict fanInventoryPath => (none, NullGpio.logConflict w fanInventoryPath)

/-- A sequence of method calls on a `NullGpio`: the world afterwards. -/
def NullGpio.invokeAll (w : SensorWorld) : List SensorCall → SensorWorld
  | [] => w
  | c :: rest => NullGpio.invokeAll (NullGpio.invoke w c).2 rest

/-! ## Concrete fans and buses -/

/-- A fan cached as not present whose single sensor reads present. -/
def fanCachedAbsent : FanEnclosure :=
  { invPath := "/system/chassis/motherboard/fan0", fanDesc := "fan0",
    sensors := [{ isPresent := true }], presState := presenceState.NOT_PRESENT }

/-- A fan cached as present whose single sensor reads absent. -/
def fanCachedPresent : FanEnclosure :=
  { invPath := "/system/chassis/motherboard/fan0", fanDesc := "fan0",
    sensors := [{ isPresent := false }], presState := presenceState.PRESENT }

/-- A fan with two sensors that disagree. -/
def fanTwoSensors : FanEnclosure :=
  { invPath := "/system/chassis/motherboard/fan0", fanDesc := "fan0",
    sensors := [{ isPresent := true }, { isPresent := false }],
    presState := presenceState.NOT_PRESENT }

/-- A bus on which every call is answered by a method error. -/
def busMapperError : Bus :=
  { call := fun _ => { is_method_error := true, body := [] } }

/-- A bus on which the mapper answers with an empty response. -/
def busMapperEmpty : Bus :=
  { call := fun _ => { is_method_error := false, body := [] } }

/-- A bus on which the mapper names the inventory manager and the inventory
manager rejects `Notify` with a method error. -/
def busNotifyRejected : Bus :=
  { call := fun c =>
      if c.member == "GetObject" then
        { is_method_error := false,
          body := [("xyz.openbmc_project.Inventory.Manager", [INVENTORY_INTF])] }
      else { is_method_error := true, body := [] } }

/-- A bus on which the mapper names the inventory manager and the inventory
manager accepts `Notify`. -/
def busAccepting : Bus :=
  { call := fun c =>
      if c.member == "GetObject" then
        { is_method_error := false,
          body := [("xyz.openbmc_project.Inventory.Manager", [INVENTORY_INTF])] }
      else { is_method_error := false, body := [] } }

/-- A bus on which the mapper names two services, the later one in key order
first, and the inventory manager accepts `Notify`. -/
def busTwoServices : Bus :=
  { call := fun c =>
      if c.member == "GetObject" then
        { is_method_error := false,
          body := [("xyz.openbmc_project.Inventory.Manager", [INVENTORY_INTF]),
                   ("org.example.Other", [])] }
      else { is_method_error := false, body := [] } }

/-! ## Properties -/

/-! ### How `getInvService` and `updInventory` run -/

theorem getInvService_sent (bus : Bus) :
    (FanEnclosure.getInvService bus).2 = [(mapperCall, bus.call mapperCall)] := by
  unfold FanEnclosure.getInvService
  by_cases h : (bus.call mapperCall).is_method_error = true
  · simp [h]
  · simp only [h]
    cases (bus.call mapperCall).read <;> rfl

theorem getInvService_fails (bus : Bus) (h : bus.lookupFails = true) :
    ∃ e, (FanEnclosure.getInvService bus).1 = Except.error e := by
  unfold Bus.lookupFails at h
  unfold FanEnclosure.getInvService
  by_cases he : (bus.call mapperCall).is_method_error = true
  · simp [he]
  · simp only [he, Bool.false_or] at h
    cases hr : (bus.call mapperCall).read with
    | nil => simp [he, hr]
    | cons a l => rw [hr] at h; simp at h

theorem getInvService_succeeds (bus : Bus) (h : bus.lookupFails = false) :
    ∃ first rest, (bus.call mapperCall).read = first :: rest ∧
      (FanEnclosure.getInvService bus).1 = Except.ok first.1 := by
  unfold Bus.lookupFails at h
  unfold FanEnclosure.getInvService
  rw [Bool.or_eq_false_iff] at h
  obtain ⟨he, hr⟩ := h
  cases hm : (bus.call mapperCall).read with
  | nil => rw [hm] at hr; simp at hr
  | cons a l => exact ⟨a, l, rfl, by simp [he, hm]⟩

theorem mapperCall_not_notify (m : Message) : isNotify (mapperCall, m) = false := by
  have h : ("GetObject" == "Notify") = false := by decide
  exact h

theorem invMsg_is_notify (svc : String) (obj : ObjectMap) (m : Message) :
    isNotify (invMsg svc obj, m) = true := by
  have h : ("Notify" == "Notify") = true := by decide
  exact h

/-- The result of `getInvService` as a pair of its outcome and the one call
it sends. -/
theorem getInvService_eq (bus : Bus) :
    FanEnclosure.getInvService bus =
      ((FanEnclosure.getInvService bus).1, [(mapperCall, bus.call mapperCall)]) := by
  rw [← getInvService_sent bus]

theorem updInventory_same (fan : FanEnclosure) (bus : Bus)
    (h : fan.presState = fan.getCurPresState) : fan.updInventory bus = (fan, []) := by
  unfold FanEnclosure.updInventory
  simp [h]

theorem updInventory_lookup_error (fan : FanEnclosure) (bus : Bus) (e : String)
    (h : fan.presState ≠ fan.getCurPresState)
    (he : (FanEnclosure.getInvService bus).1 = Except.error e) :
    fan.updInventory bus = (fan, [(mapperCall, bus.call mapperCall)]) := by
  unfold FanEnclosure.updInventory
  rw [getInvService_eq bus, he]
  simp [h]

theorem updInventory_rejected (fan : FanEnclosure) (bus : Bus) (svc : String)
    (h : fan.presState ≠ fan.getCurPresState)
    (hs : (FanEnclosure.getInvService bus).1 = Except.ok svc)
    (hr : (bus.call (invMsg svc (fan.getObjectMap fan.getCurPresState.toBool))).is_method_error
      = true) :
    fan.updInventory bus = (fan, [(mapperCall, bus.call mapperCall),
      (invMsg svc (fan.getObjectMap fan.getCurPresState.toBool),
        bus.call (invMsg svc (fan.getObjectMap fan.getCurPresState.toBool)))]) := by
  unfold FanEnclosure.updInventory
  rw [getInvService_eq bus, hs]
  simp [h, hr]

theorem updInventory_accepted (fan : FanEnclosure) (bus : Bus) (svc : String)
    (h : fan.presState ≠ fan.getCurPresState)
    (hs : (FanEnclosure.getInvService bus).1 = Except.ok svc)
    (hr : (bus.call (invMsg svc (fan.getObjectMap fan.getCurPresState.toBool))).is_method_error
      = false) :
    fan.updInventory bus = ({ fan with presState := fan.getCurPresState },
      [(mapperCall, bus.call mapperCall),
      (invMsg svc (fan.getObjectMap fan.getCurPresState.toBool),
        bus.call (invMsg svc (fan.getObjectMap fan.getCurPresState.toBool)))]) := by
  unfold FanEnclosure.updInventory
  rw [getInvService_eq bus, hs]
  simp [h, hr]

/-- The four ways a run of `updInventory` can go. -/
theorem updInventory_cases (fan : FanEnclosure) (bus : Bus) :
    (fan.presState = fan.getCurPresState ∧ fan.updInventory bus = (fan, [])) ∨
    (fan.presState ≠ fan.getCurPresState ∧ bus.lookupFails = true ∧
      fan.updInventory bus = (fan, [(mapperCall, bus.call mapperCall)])) ∨
    (fan.presState ≠ fan.getCurPresState ∧ bus.lookupFails = false ∧
      ∃ svc reply, (FanEnclosure.getInvService bus).1 = Except.ok svc ∧
        reply = bus.call (invMsg svc (fan.getObjectMap fan.getCurPresState.toBool)) ∧
        reply.is_method_error = true ∧
        fan.updInventory bus = (fan, [(mapperCall, bus.call mapperCall),
          (invMsg svc (fan.getObjectMap fan.getCurPresState.toBool), reply)])) ∨
    (fan.presState ≠ fan.getCurPresState ∧ bus.lookupFails = false ∧
      ∃ svc reply, (FanEnclosure.getInvService bus).1 = Except.ok svc ∧
        reply = bus.call (invMsg svc (fan.getObjectMap fan.getCurPresState.toBool)) ∧
        reply.is_method_error = false ∧
        fan.updInventory bus = ({ fan with presState := fan.getCurPresState },
          [(mapperCall, bus.call mapperCall),
          (invMsg svc (fan.getObjectMap fan.getCurPresState.toBool), reply)])) := by
  by_cases h : fan.presState = fan.getCurPresState
  · exact Or.inl ⟨h, updInventory_same fan bus h⟩
  · right
    cases hl : bus.lookupFails
    · right
      obtain ⟨first, rest, _, hs⟩ := getInvService_succeeds bus hl
      cases hr : (bus.call (invMsg first.1
          (fan.getObjectMap fan.getCurPresState.toBool))).is_method_error
      · exact Or.inr ⟨h, rfl, first.1, _, hs, rfl, hr, updInventory_accepted fan bus _ h hs hr⟩
      · exact Or.inl ⟨h, rfl, first.1, _, hs, rfl, hr, updInventory_rejected fan bus _ h hs hr⟩
    · obtain ⟨e, he⟩ := getInvService_fails bus hl
      exact Or.inl ⟨h, rfl, updInventory_lookup_error fan bus e h he⟩

theorem notifyCount_lookup (m : Message) : notifyCount [(mapperCall, m)] = 0 := by
  simp [notifyCount, mapperCall_not_notify]

theorem notifyCount_both (svc : String) (obj : ObjectMap) (m reply : Message) :
    notifyCount [(mapperCall, m), (invMsg svc obj, reply)] = 1 := by
  simp [notifyCount, List.countP_cons, mapperCall_not_notify, invMsg_is_notify]

theorem notifyRejected_lookup (m : Message) : notifyRejected [(mapperCall, m)] = 0 := by
  simp [notifyRejected, mapperCall_not_notify]

theorem notifyRejected_both (svc : String) (obj : ObjectMap) (m reply : Message) :
    notifyRejected [(mapperCall, m), (invMsg svc obj, reply)] =
      if reply.is_method_error then 1 else 0 := by
  cases h : reply.is_method_error <;>
    simp [notifyRejected, List.countP_cons, mapperCall_not_notify, invMsg_is_notify, h]

theorem notifyAccepted_lookup (m : Message) : notifyAccepted [(mapperCall, m)] = 0 := by
  simp [notifyAccepted, mapperCall_not_notify]

theorem notifyAccepted_both (svc : String) (obj : ObjectMap) (m reply : Message) :
    notifyAccepted [(mapperCall, m), (invMsg svc obj, reply)] =
      if reply.is_method_error then 0 else 1 := by
  cases h : reply.is_method_error <;>
    simp [notifyAccepted, List.countP_cons, mapperCall_not_notify, invMsg_is_notify, h]

/-! ### Notification and the cached state -/

/-- C2, as stated, fails: with the cached state NOT_PRESENT, a sensor reading
present and a mapper reply that is a method error, the vote differs from the
cached state and no `Notify` call is issued. -/
theorem updInventory_notify_iff_differs_fails :
    ¬ (0 < notifyCount (fanCachedAbsent.updInventory busMapperError).2 ↔
        fanCachedAbsent.getCurPresState ≠ fanCachedAbsent.presState) := by
  decide

/-- C2, amended: one run of `updInventory` issues the `Notify` call exactly
when the vote differs from the cached state at entry and the broker lookup
does not fail; it then issues exactly one. -/
theorem updInventory_notify_iff (fan : FanEnclosure) (bus : Bus) :
    (0 < notifyCount (fan.updInventory bus).2 ↔
      (fan.getCurPresState ≠ fan.presState ∧ bus.lookupFails = false)) ∧
    notifyCount (fan.updInventory bus).2 ≤ 1 := by
  rcases updInventory_cases fan bus with ⟨h, hu⟩ | ⟨h, hl, hu⟩ |
    ⟨h, hl, svc, reply, _, _, _, hu⟩ | ⟨h, hl, svc, reply, _, _, _, hu⟩
  · rw [hu]
    simp [notifyCount, h]
  · rw [hu]
    simp [notifyCount_lookup, hl]
  · rw [hu]
    simp [notifyCount_both, hl, Ne.symm h]
  · rw [hu]
    simp [notifyCount_both, hl, Ne.symm h]

/-- A failed lookup or a rejected `Notify` call leaves the cached state. -/
theorem updInventory_keeps_of_failure (fan : FanEnclosure) (bus : Bus)
    (h : (bus.call mapperCall).is_method_error = true ∨ (bus.call mapperCall).read = [] ∨
      0 < notifyRejected (fan.updInventory bus).2) :
    (fan.updInventory bus).1.presState = fan.presState := by
  rcases updInventory_cases fan bus with ⟨_, hu⟩ | ⟨_, _, hu⟩ |
    ⟨_, _, svc, reply, _, _, _, hu⟩ | ⟨_, hl, svc, reply, _, _, hr, hu⟩
  · rw [hu]
  · rw [hu]
  · rw [hu]
  · exfalso
    unfold Bus.lookupFails at hl
    rw [Bool.or_eq_false_iff] at hl
    rcases h with h | h | h
    · rw [hl.1] at h
      exact Bool.noConfusion h
    · rw [h] at hl
      exact Bool.noConfusion hl.2
    · rw [hu, notifyRejected_both, hr] at h
      exact Nat.lt_irrefl 0 h

/-- C3: if the broker lookup fails (the mapper reply is a method error or its
response map is empty) or the reply to the `Notify` call sent is a method
error, the cached state after `updInventory` is the cached state before. -/
theorem updInventory_failure_keeps_state (fan : FanEnclosure) (bus : Bus)
    (h : (bus.call mapperCall).is_method_error = true ∨ (bus.call mapperCall).read = [] ∨
      0 < notifyRejected (fan.updInventory bus).2) :
    (fan.updInventory bus).1.presState = fan.presState :=
  updInventory_keeps_of_failure fan bus h

/-- Scenario of C3 at a concrete input: cached PRESENT, the sensor reads
absent, the inventory manager rejects `Notify`; the cached state stays
PRESENT. -/
theorem updInventory_failure_keeps_state_witness :
    0 < notifyRejected (fanCachedPresent.updInventory busNotifyRejected).2 ∧
    (fanCachedPresent.updInventory busNotifyRejected).1.presState = presenceState.PRESENT :=
  ⟨by decide,
   updInventory_failure_keeps_state fanCachedPresent busNotifyRejected
     (Or.inr (Or.inr (by decide)))⟩

/-- On success the cached state becomes the vote, and it changes only then. -/
theorem updInventory_sets_of_success (fan : FanEnclosure) (bus : Bus) :
    ((bus.call mapperCall).is_method_error = false → (bus.call mapperCall).read ≠ [] →
      notifyRejected (fan.updInventory bus).2 = 0 →
      (fan.updInventory bus).1.presState = fan.getCurPresState) ∧
    ((fan.updInventory bus).1.presState ≠ fan.presState →
      (bus.call mapperCall).is_method_error = false ∧ (bus.call mapperCall).read ≠ [] ∧
      notifyAccepted (fan.updInventory bus).2 = 1 ∧
      (fan.updInventory bus).1.presState = fan.getCurPresState) := by
  rcases updInventory_cases fan bus with ⟨h, hu⟩ | ⟨_, hl, hu⟩ |
    ⟨_, _, svc, reply, _, _, hr, hu⟩ | ⟨_, hl, svc, reply, _, _, hr, hu⟩
  · rw [hu]
    exact ⟨fun _ _ _ => h, fun hne => absurd rfl hne⟩
  · rw [hu]
    refine ⟨fun he hne _ => ?_, fun hne => absurd rfl hne⟩
    exfalso
    unfold Bus.lookupFails at hl
    rw [he, Bool.false_or, List.isEmpty_iff] at hl
    exact hne hl
  · rw [hu]
    refine ⟨fun _ _ h0 => ?_, fun hne => absurd rfl hne⟩
    rw [notifyRejected_both, hr] at h0
    exact absurd h0 (by decide)
  · rw [hu]
    unfold Bus.lookupFails at hl
    rw [Bool.or_eq_false_iff] at hl
    refine ⟨fun _ _ _ => rfl, fun _ => ⟨hl.1, ?_, ?_, rfl⟩⟩
    · intro hnil
      rw [hnil] at hl
      exact Bool.noConfusion hl.2
    · rw [notifyAccepted_both, hr]
      rfl

/-- C4: if the broker lookup returns a non-empty response and no `Notify`
reply is a method error, the cached state after `updInventory` is the vote of
the readings at that call; and the cached state changes only when the lookup
succeeded and the `Notify` call sent was answered without a method error. -/
theorem updInventory_success_sets_state (fan : FanEnclosure) (bus : Bus) :
    ((bus.call mapperCall).is_method_error = false → (bus.call mapperCall).read ≠ [] →
      notifyRejected (fan.updInventory bus).2 = 0 →
      (fan.updInventory bus).1.presState = fan.getCurPresState) ∧
    ((fan.updInventory bus).1.presState ≠ fan.presState →
      (bus.call mapperCall).is_method_error = false ∧ (bus.call mapperCall).read ≠ [] ∧
      notifyAccepted (fan.updInventory bus).2 = 1 ∧
      (fan.updInventory bus).1.presState = fan.getCurPresState) :=
  updInventory_sets_of_success fan bus

/-- Scenario of C4 at a concrete input: cached NOT_PRESENT, the sensor reads
present, lookup and `Notify` succeed; the cached state becomes PRESENT. -/
theorem updInventory_success_sets_state_witness :
    (fanCachedAbsent.updInventory busAccepting).1.presState = presenceState.PRESENT ∧
    notifyAccepted (fanCachedAbsent.updInventory busAccepting).2 = 1 :=
  ⟨(updInventory_success_sets_state fanCachedAbsent busAccepting).1
      (by decide) (by decide) (by decide),
   ((updInventory_success_sets_state fanCachedAbsent busAccepting).2 (by decide)).2.2.1⟩

/-- C5: if a first run of `updInventory` fails (the lookup fails or the
`Notify` reply is a method error) and a second run, on the next readings, has
the lookup and the `Notify` call succeed, the cached state after the first run
is the initial one and after the second run it is the vote of the readings
seen by the second run. -/
theorem updInventory_retry (fan : FanEnclosure) (readings : List Sensor) (bus1 bus2 : Bus)
    (hfail : bus1.lookupFails = true ∨ 0 < notifyRejected (fan.updInventory bus1).2)
    (hlookup : bus2.lookupFails = false)
    (hnotify : notifyRejected
      (FanEnclosure.updInventory { (fan.updInventory bus1).1 with sensors := readings } bus2).2
        = 0) :
    (fan.updInventory bus1).1.presState = fan.presState ∧
    (FanEnclosure.updInventory { (fan.updInventory bus1).1 with sensors := readings }
        bus2).1.presState =
      FanEnclosure.getCurPresState { (fan.updInventory bus1).1 with sensors := readings } := by
  constructor
  · apply updInventory_keeps_of_failure
    rcases hfail with h | h
    · unfold Bus.lookupFails at h
      rw [Bool.or_eq_true, List.isEmpty_iff] at h
      rcases h with h | h
      · exact Or.inl h
      · exact Or.inr (Or.inl h)
    · exact Or.inr (Or.inr h)
  · unfold Bus.lookupFails at hlookup
    rw [Bool.or_eq_false_iff] at hlookup
    refine (updInventory_sets_of_success _ bus2).1 hlookup.1 ?_ hnotify
    intro hnil
    rw [hnil] at hlookup
    exact Bool.noConfusion hlookup.2

/-- Scenario of C5 at a concrete input: cached PRESENT, the sensor reads
absent, the lookup fails and the cached state stays PRESENT; on the retry with
the same reading everything succeeds and the cached state becomes
NOT_PRESENT. -/
theorem updInventory_retry_witness :
    (fanCachedPresent.updInventory busMapperError).1.presState = presenceState.PRESENT ∧
    (FanEnclosure.updInventory
      { (fanCachedPresent.updInventory busMapperError).1 with
        sensors := [{ isPresent := false }] } busAccepting).1.presState
      = presenceState.NOT_PRESENT :=
  updInventory_retry fanCachedPresent [{ isPresent := false }] busMapperError busAccepting
    (Or.inl (by decide)) (by decide) (by decide)

/-! ### Repeated runs on the same readings -/

theorem getCurPresState_congr (a b : FanEnclosure) (h : a.sensors = b.sensors) :
    a.getCurPresState = b.getCurPresState := by
  unfold FanEnclosure.getCurPresState
  rw [h]

theorem updInventoryRuns_settled (buses : List Bus) (fan : FanEnclosure)
    (h : fan.presState = fan.getCurPresState) : fan.updInventoryRuns buses = (fan, []) := by
  induction buses with
  | nil => rfl
  | cons bus rest ih =>
    unfold FanEnclosure.updInventoryRuns
    simp only [updInventory_same fan bus h, ih, List.append_nil]

theorem notifyAccepted_append (a b : List (MethodCall × Message)) :
    notifyAccepted (a ++ b) = notifyAccepted a + notifyAccepted b := by
  unfold notifyAccepted
  exact List.countP_append _ a b

theorem notifyCount_split (sent : List (MethodCall × Message)) :
    notifyCount sent = notifyAccepted sent + notifyRejected sent := by
  unfold notifyCount notifyAccepted notifyRejected
  induction sent with
  | nil => rfl
  | cons c rest ih =>
    simp only [List.countP_cons, ih]
    cases isNotify c <;> cases c.2.is_method_error <;> simp <;> omega

theorem updInventoryRuns_accepted_le (buses : List Bus) :
    ∀ fan : FanEnclosure, notifyAccepted (fan.updInventoryRuns buses).2 ≤ 1 := by
  induction buses with
  | nil => intro fan; simp [FanEnclosure.updInventoryRuns, notifyAccepted]
  | cons bus rest ih =>
    intro fan
    unfold FanEnclosure.updInventoryRuns
    simp only [notifyAccepted_append]
    rcases updInventory_cases fan bus with ⟨_, hu⟩ | ⟨_, _, hu⟩ |
      ⟨_, _, svc, reply, _, _, hr, hu⟩ | ⟨_, _, svc, reply, _, _, hr, hu⟩
    · rw [hu]
      simpa [notifyAccepted] using ih fan
    · rw [hu]
      simpa [notifyAccepted_lookup] using ih fan
    · rw [hu]
      simpa [notifyAccepted_both, hr] using ih fan
    · rw [hu]
      simp only [notifyAccepted_both, hr]
      rw [updInventoryRuns_settled rest _ (getCurPresState_congr _ _ rfl)]
      simp [notifyAccepted]

/-- C6, as stated, fails: with the cached state NOT_PRESENT, a sensor reading
present and an inventory manager that rejects `Notify`, two runs on the same
readings issue two `Notify` calls. -/
theorem updInventoryRuns_at_most_one_notify_fails :
    ¬ (notifyCount
        (fanCachedAbsent.updInventoryRuns [busNotifyRejected, busNotifyRejected]).2 ≤ 1) := by
  decide

/-- C6, amended: over any number of consecutive runs of `updInventory` on the
same readings, whatever the remote calls answer, at most one `Notify` call is
answered without a method error, and every other `Notify` call issued is one
that was answered by a method error. -/
theorem updInventoryRuns_at_most_one_accepted (fan : FanEnclosure) (buses : List Bus) :
    notifyAccepted (fan.updInventoryRuns buses).2 ≤ 1 ∧
    notifyCount (fan.updInventoryRuns buses).2 =
      notifyAccepted (fan.updInventoryRuns buses).2 +
        notifyRejected (fan.updInventoryRuns buses).2 :=
  ⟨updInventoryRuns_accepted_le buses fan, notifyCount_split _⟩

/-! ### The inventory object -/

theorem present_lt_prettyName : ("Present" : String) < "PrettyName" := by
  rw [String.lt_iff_toList_lt]
  decide

/-- C7: for every fan and every boolean b, `getObjectMap(b)` is the map with
the single key invPath, whose value has the single key of the Inventory.Item
interface, whose value has exactly the properties Present = b and
PrettyName = fanDesc; the sensors and the cached state have no part in it. -/
theorem getObjectMap_eq (fan : FanEnclosure) (sensors : List Sensor)
    (presState : presenceState) (b : Bool) :
    fan.getObjectMap b =
      [(fan.invPath, [("xyz.openbmc_project.Inventory.Item",
        [("Present", Value.bool b), ("PrettyName", Value.string fan.fanDesc)])])] ∧
    FanEnclosure.getObjectMap { fan with sensors := sensors, presState := presState } b =
      fan.getObjectMap b := by
  have h1 : ¬ (("PrettyName" : String) < "Present") := not_lt_of_gt present_lt_prettyName
  have h2 : ("PrettyName" : String) ≠ "Present" := ne_of_gt present_lt_prettyName
  constructor
  · unfold FanEnclosure.getObjectMap
    simp only [StdMap.emplace, h1, h2, if_false]
  · rfl

/-! ### The broker lookup -/

theorem emplace_ne_nil {κ ν : Type} [LinearOrder κ] (k : κ) (v : ν) (m : StdMap κ ν) :
    StdMap.emplace k v m ≠ [] := by
  cases m with
  | nil => simp [StdMap.emplace]
  | cons e rest =>
    obtain ⟨k', v'⟩ := e
    unfold StdMap.emplace
    split_ifs <;> simp

theorem emplace_keys_mem {κ ν : Type} [LinearOrder κ] (k : κ) (v : ν) (m : StdMap κ ν)
    (x : κ) : x ∈ StdMap.keys (StdMap.emplace k v m) ↔ x = k ∨ x ∈ StdMap.keys m := by
  induction m with
  | nil => simp [StdMap.emplace, StdMap.keys]
  | cons e rest ih =>
    obtain ⟨k', v'⟩ := e
    unfold StdMap.emplace
    unfold StdMap.keys at ih ⊢
    split_ifs with h1 h2
    · simp
    · subst h2
      simp
    · simp only [List.map_cons, List.mem_cons, ih]
      tauto

theorem emplace_sorted {κ ν : Type} [LinearOrder κ] (k : κ) (v : ν) (m : StdMap κ ν)
    (h : (StdMap.keys m).Pairwise (· < ·)) :
    (StdMap.keys (StdMap.emplace k v m)).Pairwise (· < ·) := by
  induction m with
  | nil => simp [StdMap.emplace, StdMap.keys]
  | cons e rest ih =>
    obtain ⟨k', v'⟩ := e
    have hk : StdMap.keys ((k', v') :: rest) = k' :: StdMap.keys rest := rfl
    rw [hk, List.pairwise_cons] at h
    unfold StdMap.emplace
    split_ifs with h1 h2
    · have hk2 : StdMap.keys ((k, v) :: (k', v') :: rest) = k :: k' :: StdMap.keys rest := rfl
      rw [hk2, List.pairwise_cons, List.pairwise_cons]
      refine ⟨?_, h⟩
      intro x hx
      rcases List.mem_cons.mp hx with hx | hx
      · rw [hx]; exact h1
      · exact lt_trans h1 (h.1 x hx)
    · rw [hk, List.pairwise_cons]
      exact h
    · have hk3 : StdMap.keys ((k', v') :: StdMap.emplace k v rest) =
          k' :: StdMap.keys (StdMap.emplace k v rest) := rfl
      rw [hk3, List.pairwise_cons]
      refine ⟨?_, ih h.2⟩
      intro x hx
      rcases (emplace_keys_mem k v rest x).mp hx with hx | hx
      · rw [hx]
        exact lt_of_le_of_ne (not_lt.mp h1) (Ne.symm h2)
      · exact h.1 x hx

theorem foldl_emplace_sorted {κ ν : Type} [LinearOrder κ] (l : List (κ × ν)) :
    ∀ acc : StdMap κ ν, (StdMap.keys acc).Pairwise (· < ·) →
      (StdMap.keys (l.foldl (fun m e => StdMap.emplace e.1 e.2 m) acc)).Pairwise (· < ·) := by
  induction l with
  | nil => intro acc h; exact h
  | cons e rest ih =>
    intro acc h
    exact ih _ (emplace_sorted e.1 e.2 acc h)

theorem foldl_emplace_keys {κ ν : Type} [LinearOrder κ] (l : List (κ × ν)) :
    ∀ (acc : StdMap κ ν) (x : κ),
      x ∈ StdMap.keys (l.foldl (fun m e => StdMap.emplace e.1 e.2 m) acc) ↔
        x ∈ StdMap.keys acc ∨ x ∈ l.map Prod.fst := by
  induction l with
  | nil => intro acc x; simp
  | cons e rest ih =>
    intro acc x
    rw [List.foldl_cons, ih, emplace_keys_mem]
    simp only [List.map_cons, List.mem_cons]
    tauto

theorem foldl_emplace_ne_nil {κ ν : Type} [LinearOrder κ] (l : List (κ × ν)) :
    ∀ acc : StdMap κ ν, acc ≠ [] →
      l.foldl (fun m e => StdMap.emplace e.1 e.2 m) acc ≠ [] := by
  induction l with
  | nil => intro acc h; exact h
  | cons e rest ih =>
    intro acc _
    exact ih _ (emplace_ne_nil e.1 e.2 acc)

theorem read_sorted (msg : Message) : (StdMap.keys msg.read).Pairwise (· < ·) :=
  foldl_emplace_sorted msg.body [] List.Pairwise.nil

theorem read_keys (msg : Message) (x : String) :
    x ∈ StdMap.keys msg.read ↔ x ∈ msg.body.map Prod.fst := by
  unfold Message.read
  rw [foldl_emplace_keys]
  simp [StdMap.keys]

theorem read_eq_nil_iff (msg : Message) : msg.read = [] ↔ msg.body = [] := by
  unfold Message.read
  cases hb : msg.body with
  | nil => simp
  | cons e rest =>
    simp only [List.foldl_cons, reduceCtorEq, iff_false]
    exact foldl_emplace_ne_nil rest _ (emplace_ne_nil e.1 e.2 [])

theorem busTwoServices_read :
    (busTwoServices.call mapperCall).read =
      [("org.example.Other", []),
       ("xyz.openbmc_project.Inventory.Manager", [INVENTORY_INTF])] := by
  have hlt : ("org.example.Other" : String) < "xyz.openbmc_project.Inventory.Manager" := by
    rw [String.lt_iff_toList_lt]
    decide
  have hm : (busTwoServices.call mapperCall) =
      { is_method_error := false,
        body := [("xyz.openbmc_project.Inventory.Manager", [INVENTORY_INTF]),
                 ("org.example.Other", [])] } := by
    decide
  rw [hm]
  simp only [Message.read, List.foldl_cons, List.foldl_nil, StdMap.emplace, hlt, if_true]

/-- C8: `getInvService` raises its error exactly when the mapper reply is a
method error or the response map read from it is empty, which is when the
reply carries no entry; otherwise it returns the first key of that map, which
is a service name carried by the reply and the least of the service names the
reply carries. When it raises, `updInventory` sends no `Notify` call and
leaves the fan as it was. -/
theorem getInvService_spec (bus : Bus) :
    ((∃ e, (FanEnclosure.getInvService bus).1 = Except.error e) ↔
      ((bus.call mapperCall).is_method_error = true ∨ (bus.call mapperCall).read = [])) ∧
    ((bus.call mapperCall).read = [] ↔ (bus.call mapperCall).body = []) ∧
    ((bus.call mapperCall).is_method_error = false → (bus.call mapperCall).read ≠ [] →
      ∃ svc, (FanEnclosure.getInvService bus).1 = Except.ok svc ∧
        (StdMap.keys (bus.call mapperCall).read).head? = some svc ∧
        (∀ k ∈ StdMap.keys (bus.call mapperCall).read, svc ≤ k) ∧
        svc ∈ (bus.call mapperCall).body.map Prod.fst ∧
        (∀ k ∈ (bus.call mapperCall).body.map Prod.fst, svc ≤ k)) ∧
    (∀ e, (FanEnclosure.getInvService bus).1 = Except.error e →
      ∀ fan : FanEnclosure,
        notifyCount (fan.updInventory bus).2 = 0 ∧ (fan.updInventory bus).1 = fan) := by
  have hpos : (bus.call mapperCall).is_method_error = false →
      (bus.call mapperCall).read ≠ [] →
      ∃ svc, (FanEnclosure.getInvService bus).1 = Except.ok svc ∧
        (StdMap.keys (bus.call mapperCall).read).head? = some svc ∧
        (∀ k ∈ StdMap.keys (bus.call mapperCall).read, svc ≤ k) ∧
        svc ∈ (bus.call mapperCall).body.map Prod.fst ∧
        (∀ k ∈ (bus.call mapperCall).body.map Prod.fst, svc ≤ k) := by
    intro he hne
    have hl : bus.lookupFails = false := by
      unfold Bus.lookupFails
      rw [he, Bool.false_or]
      cases hr : (bus.call mapperCall).read with
      | nil => exact absurd hr hne
      | cons a l => rfl
    obtain ⟨first, rest, hread, hs⟩ := getInvService_succeeds bus hl
    have hsorted := read_sorted (bus.call mapperCall)
    have hkeys : StdMap.keys (bus.call mapperCall).read = first.1 :: StdMap.keys rest := by
      rw [hread]
      rfl
    have hmin : ∀ k ∈ StdMap.keys (bus.call mapperCall).read, first.1 ≤ k := by
      rw [hkeys] at hsorted ⊢
      intro k hk
      rcases List.mem_cons.mp hk with hk | hk
      · rw [hk]
      · exact le_of_lt ((List.pairwise_cons.mp hsorted).1 k hk)
    refine ⟨first.1, hs, ?_, hmin, ?_, ?_⟩
    · rw [hkeys]
      rfl
    · rw [← read_keys, hkeys]
      exact List.mem_cons_self _ _
    · intro k hk
      exact hmin k ((read_keys _ k).mpr hk)
  refine ⟨⟨?_, ?_⟩, read_eq_nil_iff _, hpos, ?_⟩
  · rintro ⟨e, he⟩
    by_contra hcon
    rw [not_or] at hcon
    obtain ⟨svc, hs, _⟩ := hpos (by simpa using hcon.1) hcon.2
    rw [hs] at he
    exact Except.noConfusion he
  · intro h
    apply getInvService_fails
    unfold Bus.lookupFails
    rcases h with h | h
    · rw [h]
      rfl
    · rw [h]
      simp
  · intro e he fan
    by_cases h : fan.presState = fan.getCurPresState
    · rw [updInventory_same fan bus h]
      exact ⟨rfl, rfl⟩
    · rw [updInventory_lookup_error fan bus e h he]
      exact ⟨notifyCount_lookup _, rfl⟩

/-- Scenario of C8 at concrete inputs: on a mapper reply that carries the
Inventory.Manager service first and org.example.Other second, the service
returned is org.example.Other, the least of the two names; a mapper reply that
is a method error makes `updInventory` send no `Notify` call. -/
theorem getInvService_spec_witness :
    ((busTwoServices.call mapperCall).body.map Prod.fst =
        ["xyz.openbmc_project.Inventory.Manager", "org.example.Other"] ∧
      (FanEnclosure.getInvService busTwoServices).1 = Except.ok "org.example.Other" ∧
      (∀ k ∈ (busTwoServices.call mapperCall).body.map Prod.fst, "org.example.Other" ≤ k)) ∧
    (notifyCount (fanCachedAbsent.updInventory busMapperError).2 = 0 ∧
      (fanCachedAbsent.updInventory busMapperError).1 = fanCachedAbsent) := by
  obtain ⟨svc, hs, _, _, hmem, hmin⟩ :=
    (getInvService_spec busTwoServices).2.2.1 (by decide)
      (by rw [busTwoServices_read]; exact List.cons_ne_nil _ _)
  have hbody : (busTwoServices.call mapperCall).body.map Prod.fst =
      ["xyz.openbmc_project.Inventory.Manager", "org.example.Other"] := by decide
  have hsvc : svc = "org.example.Other" := by
    rw [hbody] at hmem hmin
    rcases List.mem_cons.mp hmem with h | h
    · have hle := hmin "org.example.Other" (by simp)
      rw [h] at hle
      have hlt : ("org.example.Other" : String) < "xyz.openbmc_project.Inventory.Manager" := by
        rw [String.lt_iff_toList_lt]
        decide
      exact absurd hle (not_le_of_gt hlt)
    · simpa using h
  rw [hsvc] at hs hmin
  exact ⟨⟨hbody, hs, hmin⟩,
    (getInvService_spec busMapperError).2.2.2
      "Error in mapper call to get inventory service name" rfl fanCachedAbsent⟩

/-! ### Disagreeing sensors -/

/-- C9: whenever the sensors of a fan do not all report the same reading, the
vote is PRESENT and `logConflict(fanPath)` is invoked on every sensor whose
reading differs from the vote, that is on every sensor reading absent. -/
theorem logConflicts_on_disagreement (fan : FanEnclosure) (h : fan.unanimous = false) :
    fan.getCurPresState = presenceState.PRESENT ∧
    ∀ (i : Nat) (s : Sensor), fan.sensors[i]? = some s →
      (s.isPresent ≠ fan.getCurPresState.toBool ↔ s.isPresent = false) ∧
      (s.isPresent ≠ fan.getCurPresState.toBool → (i, fan.invPath) ∈ fan.logConflicts) := by
  have hvote : fan.getCurPresState = presenceState.PRESENT := by
    unfold FanEnclosure.unanimous at h
    rw [Bool.or_eq_false_iff] at h
    unfold FanEnclosure.getCurPresState
    have hany : (fan.sensors.any fun s => s.isPresent) = true := by
      by_contra hcon
      have h2 := h.2
      rw [Bool.not_eq_true] at hcon
      rw [List.any_eq_false] at hcon
      have : (fan.sensors.all fun s => !s.isPresent) = true := by
        rw [List.all_eq_true]
        intro x hx
        simpa using hcon x hx
      rw [this] at h2
      exact Bool.noConfusion h2
    simp [hany]
  refine ⟨hvote, ?_⟩
  intro i s hs
  rw [hvote]
  refine ⟨by simp [presenceState.toBool], ?_⟩
  intro hne
  unfold FanEnclosure.logConflicts
  rw [h, hvote]
  simp only [Bool.false_eq_true, if_false, List.mem_map, List.mem_filter, List.mem_range]
  refine ⟨i, ⟨?_, ?_⟩, rfl⟩
  · by_contra hge
    rw [List.getElem?_eq_none (not_lt.mp hge)] at hs
    exact Option.noConfusion hs
  · rw [hs]
    simpa using hne

/-- Scenario of C9 at a concrete input: two sensors, the first reading present
and the second absent; the vote is PRESENT and `logConflict` is invoked on the
second sensor, with the fan's path. -/
theorem logConflicts_on_disagreement_witness :
    fanTwoSensors.getCurPresState = presenceState.PRESENT ∧
    (1, "/system/chassis/motherboard/fan0") ∈ fanTwoSensors.logConflicts :=
  ⟨(logConflicts_on_disagreement fanTwoSensors (by decide)).1,
   ((logConflicts_on_disagreement fanTwoSensors (by decide)).2 1 { isPresent := false }
      (by decide)).2 (by decide)⟩

/-! ### The stand-in sensor -/

theorem invoke_world (w : SensorWorld) (c : SensorCall) : (NullGpio.invoke w c).2 = w := by
  cases c <;> rfl

theorem invokeAll_world (calls : List SensorCall) :
    ∀ w : SensorWorld, NullGpio.invokeAll w calls = w := by
  induction calls with
  | nil => intro w; rfl
  | cons c rest ih =>
    intro w
    unfold NullGpio.invokeAll
    rw [invoke_world, ih]

/-- C10: for `NullGpio`, in every state and after any sequence of start, stop,
present and logConflict calls, `start()` returns false and `present()`
returns false, and neither they nor `stop()` and `logConflict(path)` change
the sensor or emit anything. -/
theorem nullGpio_always_absent (w : SensorWorld) (calls : List SensorCall) (path : String) :
    (NullGpio.start (NullGpio.invokeAll w calls)).1 = false ∧
    (NullGpio.present (NullGpio.invokeAll w calls)).1 = false ∧
    (NullGpio.start (NullGpio.invokeAll w calls)).2 = w ∧
    (NullGpio.present (NullGpio.invokeAll w calls)).2 = w ∧
    NullGpio.stop (NullGpio.invokeAll w calls) = w ∧
    NullGpio.logConflict (NullGpio.invokeAll w calls) path = w := by
  rw [invokeAll_world]
  exact ⟨rfl, rfl, rfl, rfl, rfl, rfl⟩

/-! ### The vote -/

/-- C1: for every list of sensors, the empty one included, `getCurPresState`
returns PRESENT exactly when at least one sensor reads present, and
NOT_PRESENT exactly when every sensor reads absent. -/
theorem getCurPresState_any (fan : FanEnclosure) :
    (fan.getCurPresState = presenceState.PRESENT ↔
        ∃ s ∈ fan.sensors, s.isPresent = true) ∧
    (fan.getCurPresState = presenceState.NOT_PRESENT ↔
        ∀ s ∈ fan.sensors, s.isPresent = false) := by
  unfold FanEnclosure.getCurPresState
  by_cases h : (fan.sensors.any fun s => s.isPresent) = true
  · have h' := h
    rw [List.any_eq_true] at h'
    simp only [h, if_true, true_iff, reduceCtorEq, false_iff]
    refine ⟨h', ?_⟩
    intro hall
    obtain ⟨s, hs, hp⟩ := h'
    rw [hall s hs] at hp
    exact Bool.noConfusion hp
  · have h' := h
    rw [List.any_eq_true] at h'
    simp only [h, if_false, reduceCtorEq, false_iff, true_iff]
    refine ⟨h', ?_⟩
    intro s hs
    cases hsp : s.isPresent
    · rfl
    · exact absurd ⟨s, hs, hsp⟩ h'
